import Mathlib

/-!
Verification of the SmartAI-MLInfrastructure repository: a shallow embedding
of the mock DCIM server (`EnvSetup.py`), the demo REST API (`ServerTest.py`)
and the CLI entry point, with theorems settling the spec's testable
properties.

Python's process-global random module is modelled as an explicit stream of
raw natural-number draws together with a cursor: each primitive draw reads
the value at the cursor and advances it.  `random.randint(a, b)` returns a
uniform integer in `[a, b]`; it is embedded as mapping the raw draw into
that interval by remainder, which preserves exactly the documented range
contract relied on by the source.  Clock reads (`datetime.now()`) are
modelled as natural-number instants supplied by the environment; their
serialized forms compare like the instants themselves.
-/

namespace SmartAI

/-- The process-global random number source: an infinite stream of raw
draws and the position of the next draw. -/
structure RandSource where
  stream : Nat → Nat
  pos : Nat

/-- Take one raw draw and advance the cursor. -/
def RandSource.next (s : RandSource) : Nat × RandSource :=
  (s.stream s.pos, { stream := s.stream, pos := s.pos + 1 })

/-- `random.randint(a, b)`: a uniform integer in the inclusive range
`[a, b]`, consuming one draw. -/
def randint (a b : Nat) (s : RandSource) : Nat × RandSource :=
  (a + (s.next).1 % (b - a + 1), (s.next).2)

/-- A concrete random source used to exercise the embedded handlers on
explicit inputs. -/
def constSource : RandSource :=
  { stream := fun k => k, pos := 0 }

/-- Python's `{i:02d}` format: decimal with a leading zero below 10. -/
def pad2 (i : Nat) : String :=
  if i < 10 then "0" ++ toString i else toString i

/-- One rack-power record of `get_rack_power` in `EnvSetup.py`. -/
structure RackPower where
  id : String
  location : String
  power_consumption_watts : Nat
  pdu_id : String
  pdu_status : String
deriving DecidableEq, Inhabited

/-- The loop body of `get_rack_power`: the record appended for index `i`. -/
def mkRack (i : Nat) (s : RandSource) : RackPower × RandSource :=
  ({ id := "rack-" ++ pad2 i,
     location := "Row-" ++ toString ((i - 1) / 2 + 1),
     power_consumption_watts := (randint 7500 8500 s).1,
     pdu_id := "pdu-" ++ pad2 i,
     pdu_status := "operational" },
   (randint 7500 8500 s).2)

/-- The accumulation loop of `get_rack_power` over a list of indices. -/
def powerRacks : List Nat → RandSource → List RackPower × RandSource
  | [], s => ([], s)
  | i :: is, s =>
      ((mkRack i s).1 :: (powerRacks is (mkRack i s).2).1,
       (powerRacks is (mkRack i s).2).2)

/-- Handler of `GET /api/v2/racks/power`: `for i in range(1, 4)` builds the
rack list. -/
def get_rack_power (s : RandSource) : List RackPower × RandSource :=
  powerRacks (List.range' 1 3) s

/-- The spec's operation `generate_power_readings(count=3)`: the ordered,
1-indexed sequence of `count` rack-power records; the handler is its
`count = 3` instance. -/
def generate_power_readings (count : Nat) (s : RandSource) : List RackPower × RandSource :=
  powerRacks (List.range' 1 count) s

theorem randint_bounds (a b : Nat) (h : a ≤ b) (s : RandSource) :
    a ≤ (randint a b s).1 ∧ (randint a b s).1 ≤ b := by
  have hm : (s.next).1 % (b - a + 1) < b - a + 1 :=
    Nat.mod_lt _ (by omega)
  constructor
  · simp [randint]
  · simp only [randint]
    omega

theorem powerRacks_length (l : List Nat) (s : RandSource) :
    (powerRacks l s).1.length = l.length := by
  induction l generalizing s with
  | nil => rfl
  | cons i is ih => simp [powerRacks, ih]

theorem powerRacks_ids (l : List Nat) (s : RandSource) :
    (powerRacks l s).1.map RackPower.id = l.map (fun i => "rack-" ++ pad2 i) := by
  induction l generalizing s with
  | nil => rfl
  | cons i is ih => simp [powerRacks, mkRack, ih]

theorem powerRacks_mem (l : List Nat) (s : RandSource) (r : RackPower)
    (hr : r ∈ (powerRacks l s).1) :
    7500 ≤ r.power_consumption_watts ∧ r.power_consumption_watts ≤ 8500 ∧
      r.pdu_status = "operational" := by
  induction l generalizing s with
  | nil => simp [powerRacks] at hr
  | cons i is ih =>
      simp only [powerRacks, List.mem_cons] at hr
      rcases hr with h | h
      · subst h
        refine ⟨?_, ?_, rfl⟩
        · exact (randint_bounds 7500 8500 (by omega) s).1
        · exact (randint_bounds 7500 8500 (by omega) s).2
      · exact ih _ h

/-- C1: every rack-power record has an integer `power_consumption_watts` in
`[7500, 8500]`; the number of records equals the requested count (the
handler being the default `count = 3` instance of the spec's
`generate_power_readings`), and the records form a 1-indexed ordered
sequence (`rack-01`, `rack-02`, ...). -/
theorem rack_power_range_count_indexed (count : Nat) (s : RandSource) :
    (generate_power_readings count s).1.length = count ∧
    get_rack_power s = generate_power_readings 3 s ∧
    ((generate_power_readings count s).1.map RackPower.id
      = (List.range' 1 count).map (fun i => "rack-" ++ pad2 i)) ∧
    ∀ r ∈ (generate_power_readings count s).1,
      7500 ≤ r.power_consumption_watts ∧ r.power_consumption_watts ≤ 8500 := by
  refine ⟨?_, rfl, powerRacks_ids _ _, ?_⟩
  · rw [generate_power_readings, powerRacks_length, List.length_range']
  · intro r hr
    exact ⟨(powerRacks_mem _ _ _ hr).1, (powerRacks_mem _ _ _ hr).2.1⟩

/-- C1 witness: the theorem at `count = 3` and a concrete random source,
with the membership hypothesis discharged on the first generated record. -/
theorem rack_power_range_count_indexed_witness :
    (generate_power_readings 3 constSource).1.length = 3 ∧
    7500 ≤ ((generate_power_readings 3 constSource).1.headI).power_consumption_watts := by
  have h := rack_power_range_count_indexed 3 constSource
  exact ⟨h.1, (h.2.2.2 _ (by decide)).1⟩

/-- One temperature record of `get_temperature` in `EnvSetup.py`. -/
structure TempSensor where
  id : String
  location : String
  «type» : String
  temperature_celsius : ℚ
deriving DecidableEq, Inhabited

/-- The fixed location list of `get_temperature`. -/
def locations : List String := ["rack-01", "rack-02", "server-room"]

/-- The fixed sensor-type list of `get_temperature`. -/
def sensorTypes : List String := ["ambient", "supply", "return"]

/-- `round(random.uniform(lo, hi), 1)`: a value with one decimal digit in
`[lo, hi]`, modelled by its number of tenths, a uniform integer in
`[10 * lo, 10 * hi]`, consuming one draw. -/
def uniformTenths (lo hi : Nat) (s : RandSource) : Nat × RandSource :=
  (10 * lo + (s.next).1 % (10 * (hi - lo) + 1), (s.next).2)

/-- The loop body of `get_temperature`: the record appended for position
`i` of the zipped `(location, type)` list. -/
def mkSensor (i : Nat) (loc ty : String) (s : RandSource) : TempSensor × RandSource :=
  ({ id := "temp-" ++ pad2 i,
     location := loc,
     «type» := ty,
     temperature_celsius := ((uniformTenths 20 30 s).1 : ℚ) / 10 },
   (uniformTenths 20 30 s).2)

/-- The `enumerate(zip(locations, types))` loop of `get_temperature`. -/
def tempSensors : Nat → List (String × String) → RandSource → List TempSensor × RandSource
  | _, [], s => ([], s)
  | i, (loc, ty) :: rest, s =>
      ((mkSensor i loc ty s).1 :: (tempSensors (i + 1) rest (mkSensor i loc ty s).2).1,
       (tempSensors (i + 1) rest (mkSensor i loc ty s).2).2)

/-- Handler of `GET /nlyte/api/v1/sensors/temperature`. -/
def get_temperature (s : RandSource) : List TempSensor × RandSource :=
  tempSensors 0 (locations.zip sensorTypes) s

theorem uniformTenths_bounds (lo hi : Nat) (h : lo ≤ hi) (s : RandSource) :
    10 * lo ≤ (uniformTenths lo hi s).1 ∧ (uniformTenths lo hi s).1 ≤ 10 * hi := by
  have hm : (s.next).1 % (10 * (hi - lo) + 1) < 10 * (hi - lo) + 1 :=
    Nat.mod_lt _ (by omega)
  constructor
  · simp [uniformTenths]
  · simp only [uniformTenths]
    omega

theorem get_temperature_pairs (s : RandSource) :
    (get_temperature s).1.map (fun t => (t.location, t.«type»))
      = locations.zip sensorTypes := by
  simp [get_temperature, locations, sensorTypes, tempSensors, mkSensor]

theorem mkSensor_temp_range (i : Nat) (loc ty : String) (s : RandSource) :
    20 ≤ (mkSensor i loc ty s).1.temperature_celsius ∧
      (mkSensor i loc ty s).1.temperature_celsius ≤ 30 ∧
      ∃ n : Nat, (mkSensor i loc ty s).1.temperature_celsius = (n : ℚ) / 10 := by
  have hb := uniformTenths_bounds 20 30 (by omega) s
  have h1 : ((200 : ℚ)) ≤ ((uniformTenths 20 30 s).1 : ℚ) := by
    exact_mod_cast hb.1
  have h2 : (((uniformTenths 20 30 s).1 : ℚ)) ≤ 300 := by
    exact_mod_cast hb.2
  refine ⟨?_, ?_, ⟨(uniformTenths 20 30 s).1, rfl⟩⟩
  · rw [mkSensor]
    rw [le_div_iff₀ (by norm_num)]
    linarith
  · rw [mkSensor]
    rw [div_le_iff₀ (by norm_num)]
    linarith

/-- C2: `get_temperature` returns exactly 3 records whose
`(location, type)` pairs are pairwise distinct and are taken positionally
from the fixed lists, and every `temperature_celsius` lies in
`[20.0, 30.0]` and is a multiple of one tenth (at most one decimal digit
of precision). -/
theorem temperature_three_distinct_range (s : RandSource) :
    (get_temperature s).1.length = 3 ∧
    ((get_temperature s).1.map (fun t => (t.location, t.«type»))
      = locations.zip sensorTypes) ∧
    ((get_temperature s).1.map (fun t => (t.location, t.«type»))).Pairwise (· ≠ ·) ∧
    ∀ t ∈ (get_temperature s).1,
      20 ≤ t.temperature_celsius ∧ t.temperature_celsius ≤ 30 ∧
        ∃ n : Nat, t.temperature_celsius = (n : ℚ) / 10 := by
  refine ⟨?_, get_temperature_pairs s, ?_, ?_⟩
  · simp [get_temperature, locations, sensorTypes, tempSensors]
  · rw [get_temperature_pairs s]
    decide
  · intro t ht
    simp only [get_temperature, locations, sensorTypes, List.zip, List.zipWith,
      tempSensors, List.mem_cons, List.not_mem_nil, or_false] at ht
    rcases ht with h | h | h <;> (subst h; exact mkSensor_temp_range _ _ _ _)

/-- C2 witness: the theorem at a concrete random source, with the
membership hypothesis discharged on the first generated record. -/
theorem temperature_three_distinct_range_witness :
    (get_temperature constSource).1.length = 3 ∧
    20 ≤ ((get_temperature constSource).1.headI).temperature_celsius := by
  have h := temperature_three_distinct_range constSource
  exact ⟨h.1, (h.2.2.2 _ (by simp [get_temperature, locations, sensorTypes, tempSensors])).1⟩

/-- One cooling-unit record of `get_cooling_status` in `EnvSetup.py`. -/
structure CoolingUnit where
  id : String
  location : String
  status : String
  capacity_kw : Nat
  current_load_percent : Nat
deriving DecidableEq, Inhabited

/-- The literal list passed to `random.choice` in `get_cooling_status`. -/
def statusChoices : List String :=
  ["operational", "operational", "operational", "warning"]

/-- `random.choice(l)`: the element at a uniform index of `l`, consuming
one draw. -/
def choice (l : List String) (s : RandSource) : String × RandSource :=
  (l.getD ((s.next).1 % l.length) "", (s.next).2)

/-- The loop body of `get_cooling_status`: the record appended for index
`i`; the status draw precedes the load draw, as in the dict literal. -/
def mkCoolingUnit (i : Nat) (s : RandSource) : CoolingUnit × RandSource :=
  ({ id := "crac-" ++ pad2 i,
     location := "Zone-" ++ toString i,
     status := (choice statusChoices s).1,
     capacity_kw := 50,
     current_load_percent := (randint 60 85 (choice statusChoices s).2).1 },
   (randint 60 85 (choice statusChoices s).2).2)

/-- The accumulation loop of `get_cooling_status` over a list of indices. -/
def coolingUnits : List Nat → RandSource → List CoolingUnit × RandSource
  | [], s => ([], s)
  | i :: is, s =>
      ((mkCoolingUnit i s).1 :: (coolingUnits is (mkCoolingUnit i s).2).1,
       (coolingUnits is (mkCoolingUnit i s).2).2)

/-- Handler of `GET /nlyte/api/v1/cooling/units`: `for i in range(1, 4)`
builds the unit list. -/
def get_cooling_status (s : RandSource) : List CoolingUnit × RandSource :=
  coolingUnits (List.range' 1 3) s

theorem choice_statusChoices (s : RandSource) :
    (choice statusChoices s).1 = "operational" ∨
      (choice statusChoices s).1 = "warning" := by
  have h : (s.next).1 % 4 = 0 ∨ (s.next).1 % 4 = 1 ∨
      (s.next).1 % 4 = 2 ∨ (s.next).1 % 4 = 3 := by omega
  rcases h with h | h | h | h <;> simp [choice, statusChoices, h]

theorem coolingUnits_mem (l : List Nat) (s : RandSource) (u : CoolingUnit)
    (hu : u ∈ (coolingUnits l s).1) :
    60 ≤ u.current_load_percent ∧ u.current_load_percent ≤ 85 ∧
      u.capacity_kw = 50 ∧
      (u.status = "operational" ∨ u.status = "warning") := by
  induction l generalizing s with
  | nil => simp [coolingUnits] at hu
  | cons i is ih =>
      simp only [coolingUnits, List.mem_cons] at hu
      rcases hu with h | h
      · subst h
        have hb := randint_bounds 60 85 (by omega) (choice statusChoices s).2
        exact ⟨hb.1, hb.2, rfl, choice_statusChoices s⟩
      · exact ih _ h

/-- C3: every cooling-unit record has an integer `current_load_percent` in
`[60, 85]`, `capacity_kw = 50`, and a status in {operational, warning};
the status is drawn from the 4-element list holding `operational` thrice
and `warning` once (75%/25%). -/
theorem cooling_load_capacity_status (s : RandSource) :
    (statusChoices.length = 4 ∧ statusChoices.count "operational" = 3 ∧
      statusChoices.count "warning" = 1) ∧
    ∀ u ∈ (get_cooling_status s).1,
      60 ≤ u.current_load_percent ∧ u.current_load_percent ≤ 85 ∧
        u.capacity_kw = 50 ∧ u.status ∈ statusChoices ∧
        (u.status = "operational" ∨ u.status = "warning") := by
  refine ⟨⟨rfl, by decide, by decide⟩, ?_⟩
  intro u hu
  have h := coolingUnits_mem _ _ _ hu
  refine ⟨h.1, h.2.1, h.2.2.1, ?_, h.2.2.2⟩
  rcases h.2.2.2 with hs | hs <;> rw [hs] <;> decide

/-- C3 witness: the theorem at a concrete random source, with the
membership hypothesis discharged on the first generated record. -/
theorem cooling_load_capacity_status_witness :
    ((get_cooling_status constSource).1.headI).capacity_kw = 50 ∧
    60 ≤ ((get_cooling_status constSource).1.headI).current_load_percent := by
  have h := cooling_load_capacity_status constSource
  have hm := h.2 _ (show (get_cooling_status constSource).1.headI ∈
    (get_cooling_status constSource).1 by decide)
  exact ⟨hm.2.2.1, hm.1⟩

/-- The JSON body of `GET /api/v2/racks/power`: `jsonify(racks=...)`. -/
structure PowerResponse where
  racks : List RackPower
deriving DecidableEq

/-- The full power route: generate the racks and wrap them in the JSON
object returned to the client. -/
def route_racks_power (s : RandSource) : PowerResponse × RandSource :=
  ({ racks := (get_rack_power s).1 }, (get_rack_power s).2)

/-- C4: every `GET /api/v2/racks/power` response is a JSON object whose
`racks` field has length 3 and whose elements all carry
`pdu_status = "operational"`. -/
theorem racks_power_route_shape (s : RandSource) :
    (route_racks_power s).1.racks.length = 3 ∧
    ∀ r ∈ (route_racks_power s).1.racks, r.pdu_status = "operational" := by
  constructor
  · rw [route_racks_power]
    simp [get_rack_power, powerRacks_length]
  · intro r hr
    exact (powerRacks_mem _ _ _ hr).2.2

/-- C4 witness: the theorem at a concrete random source, with the
membership hypothesis discharged on the first rack. -/
theorem racks_power_route_shape_witness :
    (route_racks_power constSource).1.racks.length = 3 ∧
    ((route_racks_power constSource).1.racks.headI).pdu_status = "operational" := by
  have h := racks_power_route_shape constSource
  exact ⟨h.1, h.2 _ (by decide)⟩

/-- The JSON body of `GET /health`; the `timestamp` field holds
`datetime.now().isoformat()`, modelled as the clock instant itself, whose
serialized form compares like the instant. -/
structure HealthResponse where
  status : String
  service : String
  timestamp : Nat
deriving DecidableEq

/-- Handler of `GET /health` at clock instant `now`. -/
def health_check (now : Nat) : HealthResponse :=
  { status := "healthy", service := "Mock DCIM Server", timestamp := now }

/-- C5: along any sequence of `/health` calls at clock instants `clock 0,
clock 1, ...`, every response has status `"healthy"`, and if the clock is
monotonically non-decreasing then so are the response timestamps. -/
theorem health_idempotent_monotone (clock : Nat → Nat)
    (hclock : ∀ i j, i ≤ j → clock i ≤ clock j) :
    ∀ i j, (health_check (clock i)).status = "healthy" ∧
      (i ≤ j →
        (health_check (clock i)).timestamp ≤ (health_check (clock j)).timestamp) := by
  intro i j
  exact ⟨rfl, fun hij => hclock i j hij⟩

/-- C5 witness: the theorem at the identity clock and the call pair
`(0, 1)`, with the monotonicity hypotheses discharged by computation. -/
theorem health_idempotent_monotone_witness :
    (health_check 0).status = "healthy" ∧
      (health_check 0).timestamp ≤ (health_check 1).timestamp := by
  have h := health_idempotent_monotone (fun k => k) (fun i j hij => hij) 0 1
  exact ⟨h.1, h.2 (by omega)⟩

/-- The JSON body of the alert handler's success branch in
`ServerTest.py`. -/
structure AlertResponse where
  message : String
  status : String
  name : String
deriving DecidableEq

/-- The body of the view function `get_alert`, given its `name`
argument. -/
def get_alert (name : String) : AlertResponse :=
  { message := "Alert, " ++ name ++ "!", status := "success", name := name }

/-- URL parameters bound by the rule `/api/server_alert`: the rule is a
static path with no converter segments, so it binds none. -/
def serverAlertRuleParams : List String := []

/-- Parameters the view function `get_alert(name)` requires; `name` has
no default value. -/
def getAlertRequiredParams : List String := ["name"]

/-- Outcome of calling a view function with keyword arguments: the
response, or the `TypeError` raised when a required argument is
missing. -/
inductive ViewResult (α : Type) where
  | ok (a : α)
  | typeError
deriving DecidableEq

/-- Flask's dispatch of a request for `/api/server_alert`: the view is
called as `get_alert(**view_args)`; a required parameter absent from
`view_args` makes the call raise `TypeError`. -/
def dispatch_server_alert (view_args : List (String × String)) : ViewResult AlertResponse :=
  if getAlertRequiredParams.all (fun p => (view_args.lookup p).isSome) then
    ViewResult.ok (get_alert ((view_args.lookup "name").getD ""))
  else ViewResult.typeError

/-- C6: every request to `/api/server_alert` carries only arguments bound
by the rule — hence none — so the dispatch always raises `TypeError` and
the success branch returning the alert JSON is unreachable. -/
theorem server_alert_always_type_error (view_args : List (String × String))
    (hbound : ∀ p ∈ view_args, p.1 ∈ serverAlertRuleParams) :
    dispatch_server_alert view_args = ViewResult.typeError ∧
      ∀ resp : AlertResponse, dispatch_server_alert view_args ≠ ViewResult.ok resp := by
  have hnil : view_args = [] := by
    cases view_args with
    | nil => rfl
    | cons p rest =>
        exact absurd (hbound p (List.mem_cons_self p rest))
          (by simp [serverAlertRuleParams])
  subst hnil
  exact ⟨rfl, fun resp h => ViewResult.noConfusion h⟩

/-- C6 witness: the theorem at the empty argument binding produced by the
static rule. -/
theorem server_alert_always_type_error_witness :
    dispatch_server_alert [] = ViewResult.typeError :=
  (server_alert_always_type_error [] (by simp)).1

/-- The JSON body of `GET /api/metrics` in `ServerTest.py`; the
`timestamp` field holds the formatted current time, modelled as the clock
instant. -/
structure MetricsData where
  cpu_usage : String
  memory_usage : String
  disk_space : String
  uptime : String
  timestamp : Nat
deriving DecidableEq, Inhabited

/-- Handler of `GET /api/metrics` at clock instant `now`: every field but
the timestamp is a literal constant. -/
def get_current_metrics (now : Nat) : MetricsData :=
  { cpu_usage := "45%", memory_usage := "67%", disk_space := "23GB free",
    uptime := "5 days, 3 hours", timestamp := now }

/-- C10: every `/api/metrics` response carries the four fixed constants,
so two responses can differ only in their timestamp (erasing the
timestamp makes them equal). -/
theorem metrics_constant_fields (t t1 t2 : Nat) :
    (get_current_metrics t).cpu_usage = "45%" ∧
    (get_current_metrics t).memory_usage = "67%" ∧
    (get_current_metrics t).disk_space = "23GB free" ∧
    (get_current_metrics t).uptime = "5 days, 3 hours" ∧
    { get_current_metrics t1 with timestamp := 0 }
      = { get_current_metrics t2 with timestamp := 0 } :=
  ⟨rfl, rfl, rfl, rfl, rfl⟩

/-- Result of the single `requests.get` issued by `get_remote_metrics`:
an HTTP response, a connection-refused error, or any other exception. -/
inductive UpstreamResult where
  | response (status_code : Nat) (body : MetricsData)
  | connectionError
  | otherError (msg : String)
deriving DecidableEq

/-- The four JSON bodies `get_remote_metrics` can return, one per branch
of the source. -/
inductive RemoteMetricsResponse where
  | success (source method : String) (data : MetricsData) (status : String)
  | fetchFailed (error : String) (status_code : Nat)
  | connectionFailed (error message : String)
  | exceptionCaught (error : String)
deriving DecidableEq

/-- The keys of the JSON object serialized for each branch's
`jsonify` call. -/
def responseJsonKeys : RemoteMetricsResponse → List String
  | RemoteMetricsResponse.success _ _ _ _ => ["source", "method", "data", "status"]
  | RemoteMetricsResponse.fetchFailed _ _ => ["error", "status_code"]
  | RemoteMetricsResponse.connectionFailed _ _ => ["error", "message"]
  | RemoteMetricsResponse.exceptionCaught _ => ["error"]

/-- Handler of `GET /api/metrics/remote`, given the outcome of its one
upstream call; the second component counts the upstream HTTP requests
issued.  The handler is total: every exception of the upstream call is
caught and turned into a returned JSON value. -/
def get_remote_metrics (upstream : UpstreamResult) : RemoteMetricsResponse × Nat :=
  match upstream with
  | UpstreamResult.response 200 body =>
      (RemoteMetricsResponse.success "HTTP Request" "GET /api/metrics" body "success", 1)
  | UpstreamResult.response code _ =>
      (RemoteMetricsResponse.fetchFailed "Failed to fetch metrics" code, 1)
  | UpstreamResult.connectionError =>
      (RemoteMetricsResponse.connectionFailed
        "Connection failed - make sure server is running"
        "Try accessing /api/metrics first", 1)
  | UpstreamResult.otherError msg =>
      (RemoteMetricsResponse.exceptionCaught msg, 1)

/-- C7: on a connection-refused upstream error, `get_remote_metrics`
returns the fixed JSON error object — whose keys include `error` — rather
than propagating the exception, and it issues exactly one upstream
request (no retry). -/
theorem remote_metrics_connection_error_handled :
    (get_remote_metrics UpstreamResult.connectionError).1
      = RemoteMetricsResponse.connectionFailed
          "Connection failed - make sure server is running"
          "Try accessing /api/metrics first" ∧
    "error" ∈ responseJsonKeys (get_remote_metrics UpstreamResult.connectionError).1 ∧
    (get_remote_metrics UpstreamResult.connectionError).2 = 1 :=
  ⟨rfl, by decide, rfl⟩

/-- The `choices` list of the `--mode` argument in `EnvSetup.py`. -/
def modeChoices : List String := ["test", "mock-dcim", "benchmark", "info"]

/-- How a run of `main()` ends, besides returning normally: a
`KeyboardInterrupt` (caught at top level, exit 0) or any other exception
reaching the top-level `except Exception` (exit 1). -/
inductive TopEvent where
  | normal
  | keyboardInterrupt
  | unhandledException
deriving DecidableEq

/-- Process exit code of the CLI entry point for a given `--mode` value,
self-test outcome and top-level event.  `argparse` exits with status 2 on
a `--mode` outside its `choices` (the `SystemExit` it raises is not an
`Exception`, so the top-level handler does not catch it); otherwise a
`KeyboardInterrupt` exits 0, an unhandled exception exits 1, and a normal
run exits 1 exactly when mode `test` reports failure. -/
def exitCode (mode : String) (testOk : Bool) (ev : TopEvent) : Nat :=
  if mode ∈ modeChoices then
    match ev with
    | TopEvent.keyboardInterrupt => 0
    | TopEvent.unhandledException => 1
    | TopEvent.normal => if mode = "test" ∧ testOk = false then 1 else 0
  else 2

/-- C8 counterexample: the run `--mode bogus` has no self-test failure and
no exception caught-as-exit-1, yet the process exits with code 2, not the
code 0 the claim requires for every such run (nor 1). -/
theorem exit_code_invalid_mode_counterexample :
    exitCode "bogus" true TopEvent.normal = 2 ∧
      exitCode "bogus" true TopEvent.normal ≠ 0 ∧
      exitCode "bogus" true TopEvent.normal ≠ 1 := by
  decide

/-- C8 (amended): for every run whose `--mode` is one of the accepted
choices, the exit code is 1 exactly when the self-test fails in mode
`test` or an unhandled exception reaches the top level, and 0 in every
other such run; runs rejected by argument parsing exit with code 2. -/
theorem exit_code_one_iff_failure (mode : String) (testOk : Bool) (ev : TopEvent)
    (hmode : mode ∈ modeChoices) :
    (exitCode mode testOk ev = 1 ↔
      (ev = TopEvent.unhandledException ∨
        (mode = "test" ∧ testOk = false ∧ ev = TopEvent.normal))) ∧
    (exitCode mode testOk ev = 0 ∨ exitCode mode testOk ev = 1) := by
  cases ev with
  | keyboardInterrupt => simp [exitCode, hmode]
  | unhandledException => simp [exitCode, hmode]
  | normal =>
      by_cases h : mode = "test" ∧ testOk = false
      · rcases h with ⟨h1, h2⟩
        subst h1
        subst h2
        decide
      · have hval : exitCode mode testOk TopEvent.normal = 0 := by
          simp only [exitCode, if_pos hmode, if_neg h]
        rw [hval]
        refine ⟨⟨fun h0 => absurd h0 (by omega), fun hr => ?_⟩, Or.inl rfl⟩
        rcases hr with hr | hr
        · exact absurd hr (by decide)
        · exact absurd ⟨hr.1, hr.2.1⟩ h

/-- C8 witness: the amended theorem at the run `--mode test` with a
failing self-test, whose exit code is 1. -/
theorem exit_code_one_iff_failure_witness :
    exitCode "test" false TopEvent.normal = 1 :=
  ((exit_code_one_iff_failure "test" false TopEvent.normal (by decide)).1).2
    (Or.inr ⟨rfl, rfl, rfl⟩)

/-- A request to the mock DCIM server, tagged with the clock instant for
the health route (the only handler reading the clock). -/
inductive Request where
  | power
  | temperature
  | cooling
  | health (now : Nat)

/-- The response of each mock DCIM route. -/
inductive Response where
  | power (r : PowerResponse)
  | temperature (sensors : List TempSensor)
  | cooling (units : List CoolingUnit)
  | health (h : HealthResponse)
deriving DecidableEq

/-- One request/response cycle of the mock DCIM server: the only program
state threaded between handler invocations is the process-global random
source. -/
def step : Request → RandSource → Response × RandSource
  | Request.power, s => (Response.power (route_racks_power s).1, (route_racks_power s).2)
  | Request.temperature, s =>
      (Response.temperature (get_temperature s).1, (get_temperature s).2)
  | Request.cooling, s =>
      (Response.cooling (get_cooling_status s).1, (get_cooling_status s).2)
  | Request.health now, s => (Response.health (health_check now), s)

/-- The server state after serving a sequence of requests. -/
def runServer : List Request → RandSource → RandSource
  | [], s => s
  | r :: rs, s => runServer rs (step r s).2

theorem powerRacks_state (l : List Nat) (s : RandSource) :
    (powerRacks l s).2.stream = s.stream ∧ s.pos ≤ (powerRacks l s).2.pos := by
  induction l generalizing s with
  | nil => exact ⟨rfl, Nat.le_refl _⟩
  | cons i is ih =>
      have h := ih (mkRack i s).2
      refine ⟨h.1, Nat.le_trans ?_ h.2⟩
      simp [mkRack, randint, RandSource.next]

theorem tempSensors_state (i : Nat) (l : List (String × String)) (s : RandSource) :
    (tempSensors i l s).2.stream = s.stream ∧ s.pos ≤ (tempSensors i l s).2.pos := by
  induction l generalizing i s with
  | nil => exact ⟨rfl, Nat.le_refl _⟩
  | cons p rest ih =>
      cases p with
      | mk loc ty =>
          have h := ih (i + 1) (mkSensor i loc ty s).2
          refine ⟨h.1, Nat.le_trans ?_ h.2⟩
          simp [mkSensor, uniformTenths, RandSource.next]

theorem coolingUnits_state (l : List Nat) (s : RandSource) :
    (coolingUnits l s).2.stream = s.stream ∧ s.pos ≤ (coolingUnits l s).2.pos := by
  induction l generalizing s with
  | nil => exact ⟨rfl, Nat.le_refl _⟩
  | cons i is ih =>
      have h := ih (mkCoolingUnit i s).2
      refine ⟨h.1, Nat.le_trans ?_ h.2⟩
      simp only [mkCoolingUnit, randint, choice, RandSource.next]
      omega

/-- C9: handler invocations are stateless: serving a request changes
nothing in the program state but the random cursor (the draw stream is
never written and the cursor only advances), so whenever two request
histories leave the random source in the same state, the next response is
the same — the response cannot depend on which handlers ran before. -/
theorem handlers_stateless (r : Request) (s : RandSource) :
    ((step r s).2.stream = s.stream ∧ s.pos ≤ (step r s).2.pos) ∧
    ∀ h1 h2 : List Request, ∀ s1 s2 : RandSource,
      runServer h1 s1 = runServer h2 s2 →
      (step r (runServer h1 s1)).1 = (step r (runServer h2 s2)).1 := by
  constructor
  · cases r with
    | power => exact powerRacks_state _ _
    | temperature => exact tempSensors_state _ _ _
    | cooling => exact coolingUnits_state _ _
    | health now => exact ⟨rfl, Nat.le_refl _⟩
  · intro h1 h2 s1 s2 heq
    rw [heq]

/-- C9 witness: the theorem at the `power` request and two concrete
histories — the empty one and a single `health` call, which consumes no
entropy — leaving the concrete random source in the same state. -/
theorem handlers_stateless_witness :
    (step Request.power (runServer [Request.health 0] constSource)).1
      = (step Request.power (runServer [] constSource)).1 :=
  (handlers_stateless Request.power constSource).2
    [Request.health 0] [] constSource constSource rfl

end SmartAI
